import Mathlib

/-!
# Verification of the phishing-detection feature-extraction pipeline

Shallow embedding of `src/ml_models/feature_extractor.py` (class
`FeatureExtractor`) and proofs of the specification claims about it.

Conventions of the embedding:
* Python strings are Lean `String`s; `s.count`, `in`, `.lower()` are modelled
  by explicit executable functions below (`pyCountStr`, `containsSub`,
  `String.toLower`).
* Python ints and exact float arithmetic (counts, ratios, sizes) are modelled
  as `ℚ`; values produced by transcendental computation (Shannon entropy,
  readability scores, the mean of entropies) are modelled as `ℝ`.
* External library calls (`nltk.word_tokenize`, `nltk.sent_tokenize`,
  `textstat.flesch_reading_ease`, `tldextract.extract(...).suffix`) are opaque
  parameters gathered in a `Libs` record: every theorem quantifies over them.
* A Python `dict` of features is an insertion-ordered association list with
  overwrite-on-set semantics (`Features`, `fset`, `fupdate`, `flookup`).
* Fallible code (`TfidfVectorizer.fit_transform`, `float(...)`) returns
  `Option`.
-/

namespace PhishFE

/-- Python `s.lower()` (ASCII-faithful). -/
def pyLower (s : String) : String :=
  (s.data.map Char.toLower).asString

/-- Helper for `countOcc`: scan `hay` left to right; a positive `skip` means
the scanner is still inside the previously matched occurrence (matches are
non-overlapping). -/
def countOccAux (needle : List Char) : List Char → Nat → Nat
  | [], _ => 0
  | _ :: rest, skip + 1 => countOccAux needle rest skip
  | c :: rest, 0 =>
    if needle.isPrefixOf (c :: rest) then 1 + countOccAux needle rest (needle.length - 1)
    else countOccAux needle rest 0

/-- Non-overlapping occurrence count of `needle` in `hay`, the semantics of
Python `str.count`: an empty needle matches at every position
(`len + 1` matches). -/
def countOcc (needle hay : List Char) : Nat :=
  if needle = [] then hay.length + 1 else countOccAux needle hay 0

/-- Python `needle in hay` substring test. -/
def containsSub (needle : List Char) : List Char → Bool
  | [] => needle.isEmpty
  | c :: rest => needle.isPrefixOf (c :: rest) || containsSub needle rest

/-- Python `w in s` on strings. -/
def pyContains (hay w : String) : Bool :=
  containsSub w.data hay.data

/-- Python `s.count(w)` on strings. -/
def pyCountStr (hay w : String) : Nat :=
  countOcc w.data hay.data

/-- The `i`-th term of the loop body of `_calculate_entropy`: for code point
`i`, `freq = s.count(chr(i))`; when the count is positive the loop subtracts
`p * log2 p` for `p = freq / len(s)` (the Python idiom
`freq and np.log2(freq) or 0` equals `np.log2(freq)` there, since at `p = 1`
both give `0`). -/
noncomputable def entropyTerm (s : String) (i : Nat) : ℝ :=
  let freq : Nat := s.data.count (Char.ofNat i)
  if 0 < freq then
    ((freq : ℝ) / (s.length : ℝ)) * Real.logb 2 ((freq : ℝ) / (s.length : ℝ))
  else 0

/-- `FeatureExtractor._calculate_entropy`: returns `0` on the empty string,
otherwise accumulates `entropy -= freq * log2(freq)` over the 256 code points
`chr(0) … chr(255)`. -/
noncomputable def calculateEntropy (s : String) : ℝ :=
  if s = "" then 0
  else -(∑ i ∈ Finset.range 256, entropyTerm s i)

/-- Modelled from the spec: the Shannon-entropy formula the specification
states, `−Σ p(c)·log2(p(c))` over all characters `c` present in `s` (used to
compare `_calculate_entropy` against the spec's words). -/
noncomputable def specShannonEntropy (s : String) : ℝ :=
  -(∑ c ∈ s.data.toFinset,
      ((s.data.count c : ℝ) / (s.length : ℝ)) *
        Real.logb 2 ((s.data.count c : ℝ) / (s.length : ℝ)))

/-! ## TF-IDF vectorizer (`sklearn.feature_extraction.text.TfidfVectorizer`)

The source constructs `TfidfVectorizer(max_features=1000, stop_words='english',
ngram_range=(1, 3))` once in `__init__` and calls `fit_transform([text])` on
each scored document.  The embedding below reproduces sklearn's behaviour for
that call: lowercase the text, tokenize with the default token pattern
`(?u)\b\w\w+\b` (maximal runs of word characters, keeping runs of length at
least two), drop the built-in English stop words, form unigrams/bigrams/
trigrams joined by spaces, take the distinct n-grams sorted alphabetically as
the fitted vocabulary (capped at `max_features` by corpus frequency), and
return the single row of the tf-idf matrix.  Fitting on a one-document corpus
makes every smooth idf factor `ln((1+1)/(1+1)) + 1 = 1`, so the row is the
L2-normalised term-count vector.  `fit_transform` raises (`Option.none` here)
when the vocabulary comes out empty. -/

/-- A word character of the default sklearn token pattern `\w` (letters,
digits, underscore; the embedding is ASCII-faithful). -/
def isWordChar (c : Char) : Bool :=
  c.isAlphanum || c = '_'

/-- Helper for `wordRuns`: `cur` is the (reversed) word-character run being
accumulated. -/
def wordRunsAux : List Char → List Char → List (List Char)
  | [], cur => if cur = [] then [] else [cur.reverse]
  | c :: rest, cur =>
    if isWordChar c then wordRunsAux rest (c :: cur)
    else if cur = [] then wordRunsAux rest [] else cur.reverse :: wordRunsAux rest []

/-- Maximal runs of word characters of a character list. -/
def wordRuns (l : List Char) : List (List Char) :=
  wordRunsAux l []

/-- sklearn tokenisation: lowercase, then keep the maximal word-character runs
of length at least two (token pattern `(?u)\b\w\w+\b`). -/
def sklearnTokenize (text : String) : List String :=
  ((wordRuns (pyLower text).data).filter (fun r => 2 ≤ r.length)).map List.asString

/-- scikit-learn's built-in `ENGLISH_STOP_WORDS` list (the frozen Glasgow IR
stop list selected by `stop_words='english'`). -/
def sklearnEnglishStopWords : List String :=
  ["a", "about", "above", "across", "after", "afterwards", "again", "against",
   "all", "almost", "alone", "along", "already", "also", "although", "always",
   "am", "among", "amongst", "amoungst", "amount", "an", "and", "another",
   "any", "anyhow", "anyone", "anything", "anyway", "anywhere", "are",
   "around", "as", "at", "back", "be", "became", "because", "become",
   "becomes", "becoming", "been", "before", "beforehand", "behind", "being",
   "below", "beside", "besides", "between", "beyond", "bill", "both",
   "bottom", "but", "by", "call", "can", "cannot", "cant", "co", "con",
   "could", "couldnt", "cry", "de", "describe", "detail", "do", "done",
   "down", "due", "during", "each", "eg", "eight", "either", "eleven",
   "else", "elsewhere", "empty", "enough", "etc", "even", "ever", "every",
   "everyone", "everything", "everywhere", "except", "few", "fifteen",
   "fifty", "fill", "find", "fire", "first", "five", "for", "former",
   "formerly", "forty", "found", "four", "from", "front", "full", "further",
   "get", "give", "go", "had", "has", "hasnt", "have", "he", "hence", "her",
   "here", "hereafter", "hereby", "herein", "hereupon", "hers", "herself",
   "him", "himself", "his", "how", "however", "hundred", "i", "ie", "if",
   "in", "inc", "indeed", "interest", "into", "is", "it", "its", "itself",
   "keep", "last", "latter", "latterly", "least", "less", "ltd", "made",
   "many", "may", "me", "meanwhile", "might", "mill", "mine", "more",
   "moreover", "most", "mostly", "move", "much", "must", "my", "myself",
   "name", "namely", "neither", "never", "nevertheless", "next", "nine",
   "no", "nobody", "none", "noone", "nor", "not", "nothing", "now",
   "nowhere", "of", "off", "often", "on", "once", "one", "only", "onto",
   "or", "other", "others", "otherwise", "our", "ours", "ourselves", "out",
   "over", "own", "part", "per", "perhaps", "please", "put", "rather", "re",
   "same", "see", "seem", "seemed", "seeming", "seems", "serious", "several",
   "she", "should", "show", "side", "since", "sincere", "six", "sixty", "so",
   "some", "somehow", "someone", "something", "sometime", "sometimes",
   "somewhere", "still", "such", "system", "take", "ten", "than", "that",
   "the", "their", "them", "themselves", "then", "thence", "there",
   "thereafter", "thereby", "therefore", "therein", "thereupon", "these",
   "they", "thick", "thin", "third", "this", "those", "though", "three",
   "through", "throughout", "thru", "thus", "to", "together", "too", "top",
   "toward", "towards", "twelve", "twenty", "two", "un", "under", "until",
   "up", "upon", "us", "very", "via", "was", "we", "well", "were", "what",
   "whatever", "when", "whence", "whenever", "where", "whereafter",
   "whereas", "whereby", "wherein", "whereupon", "wherever", "whether",
   "which", "while", "whither", "who", "whoever", "whole", "whom", "whose",
   "why", "will", "with", "within", "without", "would", "yet", "you",
   "your", "yours", "yourself", "yourselves"]

/-- The `n`-grams of a token list, joined by single spaces as sklearn does. -/
def ngramsOf (n : Nat) (toks : List String) : List String :=
  (List.range (toks.length + 1 - n)).map
    (fun i => " ".intercalate ((toks.drop i).take n))

/-- All n-grams for `ngram_range=(1, 3)`. -/
def allNgrams (toks : List String) : List String :=
  ngramsOf 1 toks ++ ngramsOf 2 toks ++ ngramsOf 3 toks

/-- Executable lexicographic order on character lists (the order sklearn sorts
its vocabulary by). -/
def lexLe : List Char → List Char → Bool
  | [], _ => true
  | _ :: _, [] => false
  | a :: as, b :: bs => if a = b then lexLe as bs else decide (a < b)

/-- Insert into an alphabetically sorted list of strings. -/
def insertSorted (a : String) : List String → List String
  | [] => [a]
  | b :: rest => if lexLe a.data b.data then a :: b :: rest else b :: insertSorted a rest

/-- Sort strings alphabetically (insertion sort). -/
def sortStrings (l : List String) : List String :=
  l.foldr insertSorted []

/-- Insert a `(frequency, term)` pair into a list sorted by decreasing
frequency, ties alphabetical. -/
def insertRanked (p : Nat × String) : List (Nat × String) → List (Nat × String)
  | [] => [p]
  | q :: rest =>
    if p.1 > q.1 || (p.1 = q.1 && lexLe p.2.data q.2.data) then p :: q :: rest
    else q :: insertRanked p rest

/-- sklearn `max_features` limiting: when more than `k` distinct terms exist,
keep the `k` of highest corpus frequency (ties resolved alphabetically; the
sklearn tie order among equal frequencies is unspecified) and keep the
vocabulary alphabetically sorted. -/
def limitFeatures (grams : List String) (vocab : List String) (k : Nat) : List String :=
  if vocab.length ≤ k then vocab
  else
    let ranked := (vocab.map (fun t => (grams.count t, t))).foldr insertRanked []
    sortStrings ((ranked.take k).map Prod.snd)

/-- The fitted vocabulary of `fit_transform([doc])`: distinct n-grams of the
stop-word-filtered tokens, alphabetically sorted, capped at `max_features`. -/
def fitVocabulary (maxFeatures : Nat) (doc : String) : List String :=
  let toks := (sklearnTokenize doc).filter (fun t => ¬ t ∈ sklearnEnglishStopWords)
  let grams := allNgrams toks
  limitFeatures grams (sortStrings grams.dedup) maxFeatures

/-- State of the source's `TfidfVectorizer`: the constructor arguments plus
the fitted vocabulary (`none` before any fit, as after `__init__`). -/
structure TfidfVectorizerState where
  maxFeatures : Nat
  vocabulary : Option (List String)
deriving DecidableEq

/-- The vectorizer as constructed in `FeatureExtractor.__init__`:
`TfidfVectorizer(max_features=1000, stop_words='english', ngram_range=(1,3))`,
not yet fitted. -/
def initTfidfVectorizer : TfidfVectorizerState :=
  { maxFeatures := 1000, vocabulary := none }

/-- L2 normalisation of a count vector (sklearn `norm='l2'`; an all-zero row
is left all-zero, matching `x / 0 = 0` in Lean). -/
noncomputable def l2normalize (v : List ℚ) : List ℝ :=
  let n : ℝ := Real.sqrt ((v.map (fun q => ((q : ℝ)) ^ 2)).sum)
  v.map (fun q => (q : ℝ) / n)

/-- `tfidf_vectorizer.fit_transform([text])` followed by
`.toarray()[0].tolist()`: refits the vocabulary on the single document and
returns the document's L2-normalised term-count row (every smooth idf weight
is `1` on a one-document corpus).  sklearn raises `ValueError` on an empty
vocabulary, modelled as `none`.  Returns the row together with the vectorizer
state after the call. -/
noncomputable def fitTransformSingle (st : TfidfVectorizerState) (text : String) :
    Option (List ℝ × TfidfVectorizerState) :=
  let vocab := fitVocabulary st.maxFeatures text
  if vocab = [] then none
  else
    let grams := allNgrams
      ((sklearnTokenize text).filter (fun t => ¬ t ∈ sklearnEnglishStopWords))
    let counts : List ℚ := vocab.map (fun t => (grams.count t : ℚ))
    some (l2normalize counts, { st with vocabulary := some vocab })

/-- `FeatureExtractor._get_tfidf_features`: `[0] * 1000` for empty text,
otherwise `fit_transform([text])` on the stored vectorizer.  The pair carries
the vectorizer state after the call (`self.tfidf_vectorizer` is mutated by the
fit). -/
noncomputable def getTfidfFeatures (st : TfidfVectorizerState) (text : String) :
    Option (List ℝ × TfidfVectorizerState) :=
  if text = "" then some (List.replicate 1000 (0 : ℝ), st)
  else fitTransformSingle st text

/-! ## Feature dictionaries

A Python `dict` of features: an insertion-ordered association list with
overwrite-on-set (`features[k] = v`) and `dict.update` semantics. -/

/-- A feature value: Python ints and exact ratios as `ℚ` (`num`), floats from
transcendental computation as `ℝ` (`real`), booleans, and the tf-idf list. -/
inductive FValue where
  | num : ℚ → FValue
  | real : ℝ → FValue
  | bool : Bool → FValue
  | vec : List ℝ → FValue

/-- An insertion-ordered feature dictionary. -/
def Features : Type := List (String × FValue)

/-- `d[k] = v`: overwrite the first binding of `k`, or append a new one. -/
def fset : Features → String → FValue → Features
  | [], k, v => [(k, v)]
  | (k', v') :: rest, k, v =>
    if k' = k then (k, v) :: rest else (k', v') :: fset rest k v

/-- `d.update(e)`: set every binding of `e` in order. -/
def fupdate (d e : Features) : Features :=
  e.foldl (fun acc kv => fset acc kv.1 kv.2) d

/-- `d.get(k)` on a feature dictionary. -/
def flookup : Features → String → Option FValue
  | [], _ => none
  | (k', v) :: rest, k => if k' = k then some v else flookup rest k

/-! ## Input data model -/

/-- One attachment descriptor; the extractor reads `get('name', '')` and
`get('size', 0)`. -/
structure AttachmentData where
  name : String := ""
  size : ℚ := 0

/-- The parsed-email record handed to `extract_all_features`
(`email_data : Dict[str, Any]`); each field carries the default used by the
corresponding `.get` call, and `headers` is a plain Python `dict`
(an association list with exact-key first-match lookup). -/
structure EmailData where
  body : String := ""
  urls : List String := []
  headers : List (String × String) := []
  attachments : List AttachmentData := []
  has_html : Bool := false
  has_forms : Bool := false
  has_scripts : Bool := false
  has_iframes : Bool := false

/-- `headers.get(k)`: first binding of exactly the key `k` (Python `dict`
lookup is case-sensitive). -/
def pyGetHeader : List (String × String) → String → Option String
  | [], _ => none
  | (k', v) :: rest, k => if k' = k then some v else pyGetHeader rest k

/-- Python truthiness of `headers.get(k)`: present and non-empty. -/
def truthyStr : Option String → Bool
  | some v => v ≠ ""
  | none => false

/-- The external library calls of the extractor, opaque parameters of the
embedding: `nltk.word_tokenize`, `nltk.sent_tokenize`,
`textstat.flesch_reading_ease` and `tldextract.extract(url).suffix`. -/
structure Libs where
  wordTokenize : String → List String
  sentTokenize : String → List String
  fleschReadingEase : String → ℝ
  tldSuffix : String → String

/-! ## `_extract_text_features` -/

/-- `FeatureExtractor._extract_text_features`. -/
def extractTextFeatures (libs : Libs) (text : String) : Features :=
  if text = "" then
    [("word_count", .num 0), ("char_count", .num 0), ("sentence_count", .num 0),
     ("avg_word_length", .num 0), ("unique_word_ratio", .num 0),
     ("uppercase_ratio", .num 0), ("punctuation_count", .num 0),
     ("readability_score", .num 0)]
  else
    let words := libs.wordTokenize (pyLower text)
    let sentences := libs.sentTokenize text
    let uniqueWords := words.dedup
    let wordCount := words.length
    let charCount := text.length
    [("word_count", .num (wordCount : ℚ)),
     ("char_count", .num (charCount : ℚ)),
     ("sentence_count", .num (sentences.length : ℚ)),
     ("avg_word_length",
       if 0 < wordCount then .num ((charCount : ℚ) / (wordCount : ℚ)) else .num 0),
     ("unique_word_ratio",
       if 0 < wordCount then .num ((uniqueWords.length : ℚ) / (wordCount : ℚ)) else .num 0),
     ("uppercase_ratio",
       if 0 < charCount then
         .num ((text.data.countP Char.isUpper : ℚ) / (charCount : ℚ))
       else .num 0),
     ("punctuation_count", .num ((text.data.countP (fun c => ".,!?;:".data.contains c) : ℚ))),
     ("readability_score", .real (libs.fleschReadingEase text))]

/-! ## `_extract_url_features` -/

/-- `url_shorteners` of `_extract_url_features`. -/
def urlShorteners : List String :=
  ["bit.ly", "tinyurl", "goo.gl", "ow.ly", "is.gd",
   "buff.ly", "adf.ly", "short.link", "tiny.cc"]

/-- `self.suspicious_tlds` from `__init__`. -/
def suspiciousTlds : List String :=
  [".xyz", ".top", ".work", ".date", ".men", ".loan",
   ".download", ".review", ".stream", ".gdn", ".racing",
   ".win", ".bid", ".trade", ".webcam", ".science"]

/-- Consume one-or-more digits (`\d+`), greedily. -/
def dropDigits1 : List Char → Option (List Char)
  | [] => none
  | c :: rest => if c.isDigit then some (rest.dropWhile Char.isDigit) else none

/-- Consume one expected character. -/
def expectChar (c : Char) : List Char → Option (List Char)
  | [] => none
  | b :: rest => if b = c then some rest else none

/-- `\d+\.\d+\.\d+\.\d+` as a prefix of `l`. -/
def dottedQuad (l : List Char) : Bool :=
  (dropDigits1 l >>= expectChar '.' >>= dropDigits1 >>= expectChar '.' >>=
    dropDigits1 >>= expectChar '.' >>= dropDigits1).isSome

/-- `re.match(r'https?://\d+\.\d+\.\d+\.\d+', url)`: anchored prefix match
(the digit runs and the literal dots are disjoint, so the greedy `\d+` needs
no backtracking). -/
def ipUrlMatch (url : String) : Bool :=
  if "https://".data.isPrefixOf url.data then
    dottedQuad (url.data.drop "https://".data.length)
  else if "http://".data.isPrefixOf url.data then
    dottedQuad (url.data.drop "http://".data.length)
  else false

/-- The loop state of `_extract_url_features`: the integer counters plus the
temporary `url_entropy` and `has_https` lists. -/
structure UrlAcc where
  suspicious : Nat
  ip : Nat
  shortened : Nat
  tld : Nat
  entropies : List ℝ
  https : List Bool

open scoped Classical in
/-- One iteration of the `for url in urls` loop of `_extract_url_features`. -/
noncomputable def urlStep (libs : Libs) (acc : UrlAcc) (url : String) : UrlAcc :=
  let acc :=
    if ipUrlMatch url then
      { acc with ip := acc.ip + 1, suspicious := acc.suspicious + 1 }
    else acc
  let acc :=
    if urlShorteners.any (fun s => pyContains url s) then
      { acc with shortened := acc.shortened + 1, suspicious := acc.suspicious + 1 }
    else acc
  let sfx := libs.tldSuffix url
  let acc :=
    if sfx ≠ "" then
      if suspiciousTlds.any (fun t => pyContains sfx t) then
        { acc with tld := acc.tld + 1, suspicious := acc.suspicious + 1 }
      else acc
    else acc
  let acc := { acc with https := acc.https ++ ["https".data.isPrefixOf url.data] }
  let e := calculateEntropy url
  let acc := { acc with entropies := acc.entropies ++ [e] }
  if 4.5 < e then { acc with suspicious := acc.suspicious + 1 } else acc

/-- `FeatureExtractor._extract_url_features` (after the two `del`s of the
temporary list fields). -/
noncomputable def extractUrlFeatures (libs : Libs) (urls : List String) : Features :=
  let acc := urls.foldl (urlStep libs) ⟨0, 0, 0, 0, [], []⟩
  [("url_count", .num (urls.length : ℚ)),
   ("suspicious_url_count", .num (acc.suspicious : ℚ)),
   ("ip_url_count", .num (acc.ip : ℚ)),
   ("shortened_url_count", .num (acc.shortened : ℚ)),
   ("suspicious_tld_count", .num (acc.tld : ℚ)),
   ("avg_url_entropy",
     match acc.entropies with
     | [] => .num 0
     | es => .real (es.sum / (es.length : ℝ))),
   ("https_ratio",
     match acc.https with
     | [] => .num 0
     | hs => .num ((hs.countP id : ℚ) / (hs.length : ℚ)))]

/-! ## `_extract_metadata_features` -/

/-- `FeatureExtractor._extract_metadata_features`: the initial all-false
dictionary, the Reply-To truthiness/mismatch checks (Python `!=` on the two
`headers.get` results, i.e. on `Option String`), the case-insensitive
`'spf=fail'`/`'dkim=fail'` substring checks inside the
`Authentication-Results` value, and the propagated HTML flags. -/
def extractMetadataFeatures (email : EmailData) : Features :=
  let base : Features :=
    [("has_reply_to", .bool false), ("reply_to_mismatch", .bool false),
     ("has_spf_fail", .bool false), ("has_dkim_fail", .bool false),
     ("has_dmarc_fail", .bool false), ("has_html", .bool false),
     ("has_forms", .bool false), ("has_scripts", .bool false),
     ("has_iframes", .bool false)]
  let hs := email.headers
  let rt := pyGetHeader hs "Reply-To"
  let f :=
    if truthyStr rt then
      let f := fset base "has_reply_to" (.bool true)
      if rt ≠ pyGetHeader hs "From" then
        fset (fset f "reply_to_mismatch" (.bool true)) "has_reply_to" (.bool true)
      else f
    else base
  let auth := (pyGetHeader hs "Authentication-Results").getD ""
  let f := fset f "has_spf_fail" (.bool (pyContains (pyLower auth) "spf=fail"))
  let f := fset f "has_dkim_fail" (.bool (pyContains (pyLower auth) "dkim=fail"))
  let f := fset f "has_html" (.bool email.has_html)
  let f := fset f "has_forms" (.bool email.has_forms)
  let f := fset f "has_scripts" (.bool email.has_scripts)
  fset f "has_iframes" (.bool email.has_iframes)

/-! ## `_extract_attachment_features` -/

/-- `suspicious_extensions` of `_extract_attachment_features`. -/
def suspiciousExtensions : List String :=
  [".exe", ".scr", ".bat", ".cmd", ".vbs", ".ps1",
   ".js", ".jar", ".docm", ".xlsm", ".pptm"]

/-- The stricter executable sublist tested inside the suspicious branch. -/
def executableExtensions : List String :=
  [".exe", ".scr", ".bat", ".cmd", ".vbs", ".ps1"]

/-- `'.' + name.split('.')[-1].lower() if '.' in name else ''`. -/
def pyExt (name : String) : String :=
  if name.data.contains '.' then "." ++ pyLower ((name.splitOn ".").getLastD "")
  else ""

/-- Loop state of `_extract_attachment_features`. -/
structure AttAcc where
  suspicious : Nat
  executable : Nat
  maxSize : ℚ
  encrypted : Bool

/-- One iteration of the `for attachment in attachments` loop. -/
def attachmentStep (acc : AttAcc) (a : AttachmentData) : AttAcc :=
  let ext := pyExt a.name
  let acc :=
    if ext ∈ suspiciousExtensions then
      if ext ∈ executableExtensions then
        { acc with suspicious := acc.suspicious + 1, executable := acc.executable + 1 }
      else { acc with suspicious := acc.suspicious + 1 }
    else acc
  let acc := { acc with maxSize := max acc.maxSize a.size }
  if [".enc", ".encrypted", ".pgp", ".gpg"].any (fun x => pyContains (pyLower a.name) x) then
    { acc with encrypted := true }
  else acc

/-- `FeatureExtractor._extract_attachment_features`. -/
def extractAttachmentFeatures (ats : List AttachmentData) : Features :=
  let acc := ats.foldl attachmentStep ⟨0, 0, 0, false⟩
  [("attachment_count", .num (ats.length : ℚ)),
   ("suspicious_attachment_count", .num (acc.suspicious : ℚ)),
   ("executable_attachment_count", .num (acc.executable : ℚ)),
   ("max_attachment_size", .num acc.maxSize),
   ("has_encrypted_attachment", .bool acc.encrypted)]

/-! ## `_extract_behavioral_features` -/

/-- `self.urgency_words` from `__init__`. -/
def urgencyWords : List String :=
  ["urgent", "immediately", "alert", "critical", "important",
   "suspended", "limited", "expire", "verify", "confirm",
   "account", "security", "update", "restore", "action required"]

/-- `self.financial_words` from `__init__`. -/
def financialWords : List String :=
  ["bank", "paypal", "credit card", "visa", "mastercard",
   "western union", "money gram", "transfer", "wire",
   "refund", "invoice", "payment", "transaction"]

/-- `self.personal_info_words` from `__init__`. -/
def personalInfoWords : List String :=
  ["password", "ssn", "social security", "date of birth",
   "mother\x27s maiden name", "credit score", "pin",
   "username", "login", "sign in", "verify your identity"]

/-- The `features[k] += text_lower.count(word)` accumulation loop over one
lexicon. -/
def lexiconCount (textLower : String) (lexicon : List String) : Nat :=
  lexicon.foldl (fun acc w => acc + pyCountStr textLower w) 0

/-- `FeatureExtractor._extract_behavioral_features`. -/
def extractBehavioralFeatures (text : String) : Features :=
  let textLower := pyLower text
  let u := lexiconCount textLower urgencyWords
  let fi := lexiconCount textLower financialWords
  let pe := lexiconCount textLower personalInfoWords
  [("urgency_words_count", .num (u : ℚ)),
   ("financial_words_count", .num (fi : ℚ)),
   ("personal_info_words_count", .num (pe : ℚ)),
   ("has_urgency", .bool (decide (0 < u))),
   ("has_financial", .bool (decide (0 < fi))),
   ("has_personal_info_request", .bool (decide (0 < pe)))]

/-! ## `extract_all_features` -/

/-- `FeatureExtractor.extract_all_features`: starts from `{}`, updates in the
five group dictionaries in order, then sets `'tfidf_vector'`.  The result
carries the vectorizer state after the call (`self.tfidf_vectorizer` may have
been refitted); `none` when the tf-idf fit raises. -/
noncomputable def extractAllFeatures (libs : Libs) (st : TfidfVectorizerState)
    (email : EmailData) : Option (Features × TfidfVectorizerState) :=
  let f := fupdate [] (extractTextFeatures libs email.body)
  let f := fupdate f (extractUrlFeatures libs email.urls)
  let f := fupdate f (extractMetadataFeatures email)
  let f := fupdate f (extractAttachmentFeatures email.attachments)
  let f := fupdate f (extractBehavioralFeatures email.body)
  match getTfidfFeatures st email.body with
  | none => none
  | some (v, st') => some (fset f "tfidf_vector" (.vec v), st')

/-! ## `prepare_ml_input` -/

/-- `numerical_features` of `prepare_ml_input`, in source order. -/
def numericalFeatureNames : List String :=
  ["word_count", "char_count", "sentence_count", "avg_word_length",
   "unique_word_ratio", "uppercase_ratio", "punctuation_count",
   "url_count", "suspicious_url_count", "ip_url_count",
   "shortened_url_count", "suspicious_tld_count", "avg_url_entropy",
   "https_ratio", "urgency_words_count", "financial_words_count",
   "personal_info_words_count", "attachment_count",
   "suspicious_attachment_count", "executable_attachment_count"]

/-- `boolean_features` of `prepare_ml_input`, in source order. -/
def booleanFeatureNames : List String :=
  ["has_reply_to", "reply_to_mismatch", "has_spf_fail",
   "has_dkim_fail", "has_html", "has_forms", "has_scripts",
   "has_iframes", "has_urgency", "has_financial",
   "has_personal_info_request", "has_encrypted_attachment"]

/-- `float(features.get(f, 0))`: a missing key gives `0.0`, a boolean gives
`1.0`/`0.0`, and `float` of a list raises `TypeError` (`none`). -/
def pyFloat : Option FValue → Option ℝ
  | none => some 0
  | some (.num q) => some ((q : ℝ))
  | some (.real r) => some r
  | some (.bool b) => some (if b then 1 else 0)
  | some (.vec _) => none

open scoped Classical in
/-- Python truthiness of `features.get(f, False)` in the boolean loop: a
missing key is falsy, numbers are truthy iff non-zero, lists iff non-empty. -/
noncomputable def pyTruthy : Option FValue → Bool
  | none => false
  | some (.num q) => decide (q ≠ 0)
  | some (.real r) => decide (r ≠ 0)
  | some (.bool b) => b
  | some (.vec v) => decide (v ≠ [])

/-- The numerical-features loop of `prepare_ml_input`: append
`float(features.get(f, 0))` for each name in order; a `TypeError` aborts. -/
noncomputable def prepareNumerical (features : Features) : Option (List ℝ) :=
  numericalFeatureNames.foldl
    (fun acc n =>
      match acc, pyFloat (flookup features n) with
      | some v, some x => some (v ++ [x])
      | _, _ => none)
    (some [])

/-- `FeatureExtractor.prepare_ml_input`: the 20 numerical features followed by
the 12 boolean features as `1`/`0`, reshaped to a single row
(`np.array(...).reshape(1, -1)`). -/
noncomputable def prepare_ml_input (features : Features) : Option (List (List ℝ)) :=
  match prepareNumerical features with
  | none => none
  | some nums =>
    some [nums ++ booleanFeatureNames.map
      (fun n => if pyTruthy (flookup features n) then (1 : ℝ) else 0)]

/-! ## Theorems -/

/-- C1 (code bug): scoring is NOT read-only on the fitted term model.  On the
freshly constructed vectorizer (vocabulary unfitted, as after `__init__`),
one scoring call `_get_tfidf_features("hello world")` leaves the vectorizer
fitted on that single document: `fit_transform` refits the vocabulary/IDF
state at scoring time, contradicting the spec's requirement that the fitted
state be unchanged by every scoring call (the source comment itself notes a
pre-fitted vectorizer should be used in production). -/
theorem tfidf_scoring_refits_vectorizer :
    initTfidfVectorizer.vocabulary = none ∧
    (getTfidfFeatures initTfidfVectorizer "hello world").map (fun p => p.2) =
      some { maxFeatures := 1000, vocabulary := some ["hello", "hello world", "world"] } := by
  constructor
  · rfl
  · have hv : fitVocabulary initTfidfVectorizer.maxFeatures "hello world"
        = ["hello", "hello world", "world"] := by decide
    simp only [getTfidfFeatures, fitTransformSingle, hv]
    rw [if_neg (show ¬(("hello world" : String) = "") from by decide),
      if_neg (show ¬((["hello", "hello world", "world"] : List String) = []) from by decide)]
    simp [initTfidfVectorizer]

/-- C2 (code bug): the text-embedding sub-vector does NOT have the fixed
length 1000 for every body text.  The empty body yields the intended
`[0] * 1000`, but a non-empty body is refit on itself, so the returned row
has the length of the single-document vocabulary: `"hello world"` yields a
vector of length 3 (terms `hello`, `world`, `hello world`), not 1000. -/
theorem tfidf_vector_length_varies :
    (getTfidfFeatures initTfidfVectorizer "").map (fun p => p.1.length) = some 1000 ∧
    (getTfidfFeatures initTfidfVectorizer "hello world").map (fun p => p.1.length) = some 3 := by
  constructor
  · unfold getTfidfFeatures
    rw [if_pos rfl]
    simp only [Option.map_some']
    rw [List.length_replicate]
  · have hv : fitVocabulary initTfidfVectorizer.maxFeatures "hello world"
        = ["hello", "hello world", "world"] := by decide
    simp only [getTfidfFeatures, fitTransformSingle, hv, l2normalize]
    rw [if_neg (show ¬(("hello world" : String) = "") from by decide),
      if_neg (show ¬((["hello", "hello world", "world"] : List String) = []) from by decide)]
    simp

/-- A string is the empty literal iff its character list is empty. -/
theorem string_eq_empty_iff (s : String) : s = "" ↔ s.data = [] := by
  constructor
  · intro h; rw [h]
  · intro h; cases s; simp_all

/-- Permutation invariance of `_calculate_entropy`: the function reads the
string only through per-character counts and the total length, both invariant
under permutation. -/
theorem calculateEntropy_perm (s t : String) (h : s.data.Perm t.data) :
    calculateEntropy s = calculateEntropy t := by
  unfold calculateEntropy
  have hlen : s.length = t.length := h.length_eq
  have hcount : ∀ c : Char, s.data.count c = t.data.count c := fun c => h.count_eq c
  by_cases ht : t = ""
  · rw [if_pos ht, if_pos ((string_eq_empty_iff s).mpr (((string_eq_empty_iff t).mp ht ▸ h).eq_nil))]
  · rw [if_neg ht, if_neg (fun hs => ht ((string_eq_empty_iff t).mpr
      (((string_eq_empty_iff s).mp hs ▸ h).symm.eq_nil)))]
    congr 1
    exact Finset.sum_congr rfl (fun i _ => by simp only [entropyTerm, hcount, hlen])

/-- `_calculate_entropy` of a repeated single character is `0`: the only
non-zero count gives `p = 1` and `log2 1 = 0`. -/
theorem calculateEntropy_replicate (c : Char) (n : Nat) (hn : 1 ≤ n) :
    calculateEntropy (String.mk (List.replicate n c)) = 0 := by
  unfold calculateEntropy
  rw [if_neg]
  · have hterm : ∀ i ∈ Finset.range 256, entropyTerm (String.mk (List.replicate n c)) i = 0 := by
      intro i _
      unfold entropyTerm
      simp only [String.data]
      by_cases hc : c = Char.ofNat i
      · subst hc
        have hlen : (String.mk (List.replicate n (Char.ofNat i))).length = n := by
          simp [String.length, List.length_replicate]
        simp only [List.count_replicate, beq_self_eq_true, if_true, hlen]
        rw [if_pos (by omega), div_self (Nat.cast_ne_zero.mpr (by omega)), Real.logb_one,
          mul_zero]
      · have hbeq : (c == Char.ofNat i) = false := beq_eq_false_iff_ne.mpr hc
        simp only [List.count_replicate, hbeq, if_false]
        simp
    rw [Finset.sum_congr rfl hterm]
    simp
  · rw [string_eq_empty_iff]
    simp only [String.data, List.replicate_eq_nil_iff]
    omega

/-- C6: the three entropy equations of the spec hold of `_calculate_entropy`:
entropy of the empty string is `0`; entropy is invariant under permutation of
the string's characters; entropy of a single character repeated `n ≥ 1` times
is `0`. -/
theorem calculate_entropy_equations :
    calculateEntropy "" = 0 ∧
    (∀ s t : String, s.data.Perm t.data → calculateEntropy s = calculateEntropy t) ∧
    (∀ (c : Char) (n : Nat), 1 ≤ n →
      calculateEntropy (String.mk (List.replicate n c)) = 0) :=
  ⟨by simp [calculateEntropy], calculateEntropy_perm, calculateEntropy_replicate⟩

/-- Witness for C6 at concrete inputs: `"ab"` is a permutation of `"ba"` with
equal entropy, and `"aaa"` (three repeated `'a'`) has entropy `0`. -/
theorem calculate_entropy_equations_witness :
    ("ab".data.Perm "ba".data ∧ calculateEntropy "ab" = calculateEntropy "ba") ∧
    (1 ≤ 3 ∧ calculateEntropy (String.mk (List.replicate 3 'a')) = 0) :=
  ⟨⟨by decide, calculate_entropy_equations.2.1 "ab" "ba" (by decide)⟩,
   ⟨by decide, calculate_entropy_equations.2.2 'a' 3 (by decide)⟩⟩

/-- `Char.ofNat` inverts `Char.toNat` on code points below 256 (all below the
surrogate range, hence valid). -/
theorem char_toNat_ofNat (i : Nat) (h : i < 256) : (Char.ofNat i).toNat = i := by
  have hv : Nat.isValidChar i := Or.inl (by omega)
  rw [Char.ofNat, dif_pos hv]
  simp only [Char.toNat, Char.ofNatAux]
  exact BitVec.toNat_ofNatLt i (by omega)

/-- What the `chr(0)…chr(255)` loop of `_calculate_entropy` actually computes
on a non-empty string: the Shannon sum restricted to the characters of the
string whose code point is below 256. -/
theorem calcEntropy_eq_sum_lt256 (s : String) (hs : s ≠ "") :
    calculateEntropy s =
      -(∑ c ∈ s.data.toFinset.filter (fun c => c.toNat < 256),
        ((s.data.count c : ℝ) / (s.length : ℝ)) *
          Real.logb 2 ((s.data.count c : ℝ) / (s.length : ℝ))) := by
  unfold calculateEntropy
  rw [if_neg hs]
  congr 1
  have hterm : ∀ i ∈ Finset.range 256, entropyTerm s i =
      if Char.ofNat i ∈ s.data then
        ((s.data.count (Char.ofNat i) : ℝ) / (s.length : ℝ)) *
          Real.logb 2 ((s.data.count (Char.ofNat i) : ℝ) / (s.length : ℝ))
      else 0 := by
    intro i _
    unfold entropyTerm
    by_cases hmem : Char.ofNat i ∈ s.data
    · rw [if_pos (List.count_pos_iff.mpr hmem), if_pos hmem]
    · rw [if_neg hmem, if_neg]
      exact fun hlt => hmem (List.count_pos_iff.mp hlt)
  rw [Finset.sum_congr rfl hterm, ← Finset.sum_filter]
  apply Finset.sum_nbij' (fun i => Char.ofNat i) (fun c => c.toNat)
  · intro a ha
    simp only [Finset.mem_filter, Finset.mem_range] at ha
    simp only [Finset.mem_filter, List.mem_toFinset]
    exact ⟨ha.2, by rw [char_toNat_ofNat a ha.1]; exact ha.1⟩
  · intro c hc
    simp only [Finset.mem_filter, List.mem_toFinset] at hc
    simp only [Finset.mem_filter, Finset.mem_range]
    exact ⟨hc.2, by rw [Char.ofNat_toNat]; exact hc.1⟩
  · intro a ha
    simp only [Finset.mem_filter, Finset.mem_range] at ha
    exact char_toNat_ofNat a ha.1
  · intro c _
    exact Char.ofNat_toNat c
  · intro a _
    rfl

/-- C7 counterexample: `_calculate_entropy` is NOT the Shannon entropy over
all characters present.  On `"Āa"` (`'Ā'` is code point 256, outside the
`chr(0)…chr(255)` loop) the code returns `1/2`, while the spec's formula over
the two characters present gives `1`. -/
theorem calculate_entropy_misses_high_codepoints :
    calculateEntropy "Āa" ≠ specShannonEntropy "Āa" := by
  have hfilter : "Āa".data.toFinset.filter (fun c => c.toNat < 256) = {'a'} := by decide
  have hcalc : calculateEntropy "Āa" = 1 / 2 := by
    rw [calcEntropy_eq_sum_lt256 "Āa" (by decide), hfilter, Finset.sum_singleton]
    have hcnt : ("Āa".data.count 'a' : ℝ) = 1 := by
      norm_num [show "Āa".data.count 'a' = 1 from by decide]
    have hlen : (("Āa" : String).length : ℝ) = 2 := by
      norm_num [show ("Āa" : String).length = 2 from by decide]
    rw [hcnt, hlen]
    rw [show (1 : ℝ) / 2 = 2⁻¹ from by norm_num, Real.logb_inv,
      Real.logb_self_eq_one (by norm_num)]
    norm_num
  have hspec : specShannonEntropy "Āa" = 1 := by
    unfold specShannonEntropy
    have htf : "Āa".data.toFinset = {'Ā', 'a'} := by decide
    rw [htf, Finset.sum_pair (by decide)]
    have hc1 : ("Āa".data.count 'Ā' : ℝ) = 1 := by
      norm_num [show "Āa".data.count 'Ā' = 1 from by decide]
    have hc2 : ("Āa".data.count 'a' : ℝ) = 1 := by
      norm_num [show "Āa".data.count 'a' = 1 from by decide]
    have hlen : (("Āa" : String).length : ℝ) = 2 := by
      norm_num [show ("Āa" : String).length = 2 from by decide]
    rw [hc1, hc2, hlen]
    rw [show (1 : ℝ) / 2 = 2⁻¹ from by norm_num, Real.logb_inv,
      Real.logb_self_eq_one (by norm_num)]
    norm_num
  rw [hcalc, hspec]
  norm_num

/-- C7 amended: for every string all of whose characters have code points
below 256, `_calculate_entropy` equals the Shannon entropy
`−Σ p(c)·log2(p(c))` over all characters present (the loop over
`chr(0)…chr(255)` covers every character of such a string; both sides are `0`
on the empty string). -/
theorem calculate_entropy_shannon_below_256 (s : String)
    (h : ∀ c ∈ s.data, c.toNat < 256) :
    calculateEntropy s = specShannonEntropy s := by
  by_cases hs : s = ""
  · subst hs
    simp [calculateEntropy, specShannonEntropy]
  · rw [calcEntropy_eq_sum_lt256 s hs]
    unfold specShannonEntropy
    congr 1
    apply Finset.sum_congr
    · apply Finset.filter_true_of_mem
      intro c hc
      exact h c (List.mem_toFinset.mp hc)
    · intro c _
      rfl

/-- Witness for the amended C7 at the all-ASCII string `"ab"`. -/
theorem calculate_entropy_shannon_below_256_witness :
    (∀ c ∈ "ab".data, c.toNat < 256) ∧
    calculateEntropy "ab" = specShannonEntropy "ab" :=
  ⟨by decide, calculate_entropy_shannon_below_256 "ab" (by decide)⟩

open scoped Classical in
/-- Counter changes of one iteration of the URL loop: each of the four checks
independently increments its own counter and `suspicious_url_count`. -/
theorem urlStep_counters (libs : Libs) (acc : UrlAcc) (u : String) :
    (urlStep libs acc u).ip = acc.ip + (if ipUrlMatch u then 1 else 0) ∧
    (urlStep libs acc u).shortened
      = acc.shortened + (if urlShorteners.any (fun s => pyContains u s) then 1 else 0) ∧
    (urlStep libs acc u).tld
      = acc.tld + (if (libs.tldSuffix u != "")
          && suspiciousTlds.any (fun t => pyContains (libs.tldSuffix u) t) then 1 else 0) ∧
    (urlStep libs acc u).suspicious
      = acc.suspicious + (if ipUrlMatch u then 1 else 0)
        + (if urlShorteners.any (fun s => pyContains u s) then 1 else 0)
        + (if (libs.tldSuffix u != "")
            && suspiciousTlds.any (fun t => pyContains (libs.tldSuffix u) t) then 1 else 0)
        + (if 4.5 < calculateEntropy u then 1 else 0) := by
  unfold urlStep
  simp only [apply_ite UrlAcc.ip, apply_ite UrlAcc.shortened, apply_ite UrlAcc.tld,
    apply_ite UrlAcc.suspicious]
  refine ⟨?_, ?_, ?_, ?_⟩ <;> split_ifs <;> simp_all [bne_iff_ne] <;>
    first
    | omega
    | (rename_i hex; obtain ⟨x, hx, hpx⟩ := hex; simp_all)



open scoped Classical in
/-- The URL loop accumulates, for each sub-bucket, the number of URLs passing
that check, and `suspicious_url_count` accumulates the sum of all four. -/
theorem urlFold_counters (libs : Libs) (urls : List String) : ∀ acc : UrlAcc,
    (urls.foldl (urlStep libs) acc).ip = acc.ip + urls.countP ipUrlMatch ∧
    (urls.foldl (urlStep libs) acc).shortened
      = acc.shortened + urls.countP (fun u => urlShorteners.any (fun s => pyContains u s)) ∧
    (urls.foldl (urlStep libs) acc).tld
      = acc.tld + urls.countP (fun u => (libs.tldSuffix u != "")
          && suspiciousTlds.any (fun t => pyContains (libs.tldSuffix u) t)) ∧
    (urls.foldl (urlStep libs) acc).suspicious
      = acc.suspicious + urls.countP ipUrlMatch
        + urls.countP (fun u => urlShorteners.any (fun s => pyContains u s))
        + urls.countP (fun u => (libs.tldSuffix u != "")
            && suspiciousTlds.any (fun t => pyContains (libs.tldSuffix u) t))
        + urls.countP (fun u => decide (4.5 < calculateEntropy u)) := by
  induction urls with
  | nil => intro acc; simp
  | cons u rest ih =>
    intro acc
    have hstep := urlStep_counters libs acc u
    have hrest := ih (urlStep libs acc u)
    simp only [List.foldl_cons, List.countP_cons] at *
    refine ⟨?_, ?_, ?_, ?_⟩
    · rw [hrest.1, hstep.1]; omega
    · rw [hrest.2.1, hstep.2.1]; omega
    · rw [hrest.2.2.1, hstep.2.2.1]; omega
    · rw [hrest.2.2.2, hstep.2.2.2]
      simp only [decide_eq_true_eq]
      omega



open scoped Classical in
/-- C4: `suspicious_url_count` is additive over the four sub-buckets without
per-URL deduplication: it equals `ip_url_count + shortened_url_count +
suspicious_tld_count + (number of URLs of entropy above 4.5)`, each sub-bucket
being an independent per-URL count (so one URL can be counted several
times). -/
theorem suspicious_url_count_additive (libs : Libs) (urls : List String) :
    flookup (extractUrlFeatures libs urls) "ip_url_count"
      = some (.num ((urls.countP ipUrlMatch : ℕ) : ℚ)) ∧
    flookup (extractUrlFeatures libs urls) "shortened_url_count"
      = some (.num ((urls.countP (fun u => urlShorteners.any (fun s => pyContains u s)) : ℕ) : ℚ)) ∧
    flookup (extractUrlFeatures libs urls) "suspicious_tld_count"
      = some (.num ((urls.countP (fun u => (libs.tldSuffix u != "")
          && suspiciousTlds.any (fun t => pyContains (libs.tldSuffix u) t)) : ℕ) : ℚ)) ∧
    flookup (extractUrlFeatures libs urls) "suspicious_url_count"
      = some (.num ((urls.countP ipUrlMatch
          + urls.countP (fun u => urlShorteners.any (fun s => pyContains u s))
          + urls.countP (fun u => (libs.tldSuffix u != "")
              && suspiciousTlds.any (fun t => pyContains (libs.tldSuffix u) t))
          + urls.countP (fun u => decide (4.5 < calculateEntropy u)) : ℕ) : ℚ)) := by
  obtain ⟨h1, h2, h3, h4⟩ := urlFold_counters libs urls ⟨0, 0, 0, 0, [], []⟩
  unfold extractUrlFeatures
  simp only [flookup]
  refine ⟨?_, ?_, ?_, ?_⟩
  · simp +decide
    rw [h1]
    norm_num
  · simp +decide
    rw [h2]
    norm_num
  · simp +decide
    rw [h3]
    norm_num
  · simp +decide
    rw [h4]
    norm_num

/-- The zero/false default feature dictionary the Analyzer produces on the
empty/default email: all 36 declared keys in insertion order, every numeric
feature `0`, every boolean feature `false`, and the `[0] * 1000` text
embedding. -/
def defaultEmailFeatures : Features :=
  [("word_count", .num 0), ("char_count", .num 0), ("sentence_count", .num 0),
   ("avg_word_length", .num 0), ("unique_word_ratio", .num 0),
   ("uppercase_ratio", .num 0), ("punctuation_count", .num 0),
   ("readability_score", .num 0),
   ("url_count", .num 0), ("suspicious_url_count", .num 0),
   ("ip_url_count", .num 0), ("shortened_url_count", .num 0),
   ("suspicious_tld_count", .num 0), ("avg_url_entropy", .num 0),
   ("https_ratio", .num 0),
   ("has_reply_to", .bool false), ("reply_to_mismatch", .bool false),
   ("has_spf_fail", .bool false), ("has_dkim_fail", .bool false),
   ("has_dmarc_fail", .bool false), ("has_html", .bool false),
   ("has_forms", .bool false), ("has_scripts", .bool false),
   ("has_iframes", .bool false),
   ("attachment_count", .num 0), ("suspicious_attachment_count", .num 0),
   ("executable_attachment_count", .num 0), ("max_attachment_size", .num 0),
   ("has_encrypted_attachment", .bool false),
   ("urgency_words_count", .num 0), ("financial_words_count", .num 0),
   ("personal_info_words_count", .num 0), ("has_urgency", .bool false),
   ("has_financial", .bool false), ("has_personal_info_request", .bool false),
   ("tfidf_vector", .vec (List.replicate 1000 0))]

/-- `_extract_text_features` on the empty body takes the early-return branch
of zero defaults. -/
theorem extractTextFeatures_empty (libs : Libs) : extractTextFeatures libs "" =
    [("word_count", .num 0), ("char_count", .num 0), ("sentence_count", .num 0),
     ("avg_word_length", .num 0), ("unique_word_ratio", .num 0),
     ("uppercase_ratio", .num 0), ("punctuation_count", .num 0),
     ("readability_score", .num 0)] := rfl

/-- `_extract_url_features` on no URLs: all counters zero and both aggregate
ratios take their empty-guard `0`. -/
theorem extractUrlFeatures_nil (libs : Libs) : extractUrlFeatures libs [] =
    [("url_count", .num 0), ("suspicious_url_count", .num 0),
     ("ip_url_count", .num 0), ("shortened_url_count", .num 0),
     ("suspicious_tld_count", .num 0), ("avg_url_entropy", .num 0),
     ("https_ratio", .num 0)] := rfl

/-- `_extract_metadata_features` on the default record (no headers, all HTML
flags false) keeps the initial all-false dictionary. -/
theorem extractMetadataFeatures_default : extractMetadataFeatures {} =
    [("has_reply_to", .bool false), ("reply_to_mismatch", .bool false),
     ("has_spf_fail", .bool false), ("has_dkim_fail", .bool false),
     ("has_dmarc_fail", .bool false), ("has_html", .bool false),
     ("has_forms", .bool false), ("has_scripts", .bool false),
     ("has_iframes", .bool false)] := rfl

/-- `_extract_attachment_features` on no attachments. -/
theorem extractAttachmentFeatures_nil : extractAttachmentFeatures [] =
    [("attachment_count", .num 0), ("suspicious_attachment_count", .num 0),
     ("executable_attachment_count", .num 0), ("max_attachment_size", .num 0),
     ("has_encrypted_attachment", .bool false)] := rfl

/-- `_extract_behavioral_features` on the empty body: every lexicon count is
zero and every presence flag false. -/
theorem extractBehavioralFeatures_empty : extractBehavioralFeatures "" =
    [("urgency_words_count", .num 0), ("financial_words_count", .num 0),
     ("personal_info_words_count", .num 0), ("has_urgency", .bool false),
     ("has_financial", .bool false), ("has_personal_info_request", .bool false)] := rfl

/-- `_get_tfidf_features` on the empty body returns `[0] * 1000` and leaves
the vectorizer untouched. -/
theorem getTfidfFeatures_empty (st : TfidfVectorizerState) :
    getTfidfFeatures st "" = some (List.replicate 1000 0, st) := rfl

set_option maxHeartbeats 1000000 in
/-- `extract_all_features` on the empty/default email record evaluates to the
full default dictionary, with the vectorizer state unchanged. -/
theorem extractAllFeatures_default (libs : Libs) (st : TfidfVectorizerState) :
    extractAllFeatures libs st {} = some (defaultEmailFeatures, st) := by
  simp only [extractAllFeatures]
  rw [extractTextFeatures_empty, extractUrlFeatures_nil, extractMetadataFeatures_default,
    extractAttachmentFeatures_nil, extractBehavioralFeatures_empty, getTfidfFeatures_empty]
  rfl

/-- C3: on the empty/default email record (empty body, no URLs, no
attachments, no headers, all flags false) `extract_all_features` returns,
without error, the complete feature dictionary: every one of the 36 declared
feature keys is present and bound to its zero/false default (and the
`tfidf_vector` key to `[0] * 1000`) — no key is missing and no partial
feature set is produced; the vectorizer state is untouched. -/
theorem extract_all_features_empty_defaults (libs : Libs) (st : TfidfVectorizerState) :
    extractAllFeatures libs st {} = some (defaultEmailFeatures, st) :=
  extractAllFeatures_default libs st

/-- Reading a feature dictionary after one `d[k'] = v` assignment: the set
key returns the new value, any other key is unaffected. -/
theorem flookup_fset (d : Features) (k' k : String) (v : FValue) :
    flookup (fset d k' v) k = if k' = k then some v else flookup d k := by
  induction d with
  | nil => simp only [fset, flookup]
  | cons kv rest ih =>
    obtain ⟨a, w⟩ := kv
    simp only [fset]
    by_cases h : a = k'
    · subst h
      simp only [if_pos rfl, flookup]
      split_ifs <;> rfl
    · simp only [if_neg h, flookup, ih]
      split_ifs <;> simp_all

/-- C5 counterexample: header lookup in `_extract_metadata_features` is
case-sensitive, not case-insensitive.  Two email records that differ only in
the letter-case of the single header key (`"Reply-To"` versus `"reply-to"`,
same value) yield different `has_reply_to` features: the plain `dict.get`
only finds the exactly spelled key. -/
theorem header_key_case_changes_metadata_features :
    flookup (extractMetadataFeatures { headers := [("Reply-To", "a@b.com")] }) "has_reply_to"
      = some (.bool true) ∧
    flookup (extractMetadataFeatures { headers := [("reply-to", "a@b.com")] }) "has_reply_to"
      = some (.bool false) := ⟨rfl, rfl⟩

/-- C5 amended: only the substring search inside the authentication-results
header VALUE is case-insensitive, while the header KEY lookup is exact
(case-sensitive): `has_spf_fail`/`has_dkim_fail` are computed from the
lowercased value of exactly the key `"Authentication-Results"`, so changing
the letter-case of that value leaves them unchanged. -/
theorem auth_value_case_insensitive_spf_dkim (email : EmailData) :
    flookup (extractMetadataFeatures email) "has_spf_fail"
      = some (.bool (pyContains
          (pyLower ((pyGetHeader email.headers "Authentication-Results").getD ""))
          "spf=fail")) ∧
    flookup (extractMetadataFeatures email) "has_dkim_fail"
      = some (.bool (pyContains
          (pyLower ((pyGetHeader email.headers "Authentication-Results").getD ""))
          "dkim=fail")) ∧
    (∀ v w : String, pyLower v = pyLower w →
      pyContains (pyLower v) "spf=fail" = pyContains (pyLower w) "spf=fail" ∧
      pyContains (pyLower v) "dkim=fail" = pyContains (pyLower w) "dkim=fail") := by
  refine ⟨?_, ?_, ?_⟩
  · simp only [extractMetadataFeatures, flookup_fset]
    simp +decide
  · simp only [extractMetadataFeatures, flookup_fset]
    simp +decide
  · intro v w h
    rw [h]
    exact ⟨rfl, rfl⟩

/-- Witness for the amended C5: the values `"SPF=Fail"` and `"spf=fail"`
agree after lowercasing and give identical detection results. -/
theorem auth_value_case_insensitive_spf_dkim_witness :
    pyLower "SPF=Fail" = pyLower "spf=fail" ∧
    (pyContains (pyLower "SPF=Fail") "spf=fail" = pyContains (pyLower "spf=fail") "spf=fail" ∧
     pyContains (pyLower "SPF=Fail") "dkim=fail" = pyContains (pyLower "spf=fail") "dkim=fail") :=
  ⟨by decide, (auth_value_case_insensitive_spf_dkim {}).2.2 "SPF=Fail" "spf=fail" (by decide)⟩

/-- A trivial instantiation of the external-library parameters, used to
evaluate theorems at concrete inputs. -/
def trivLibs : Libs :=
  { wordTokenize := fun _ => [], sentTokenize := fun _ => [],
    fleschReadingEase := fun _ => 0, tldSuffix := fun _ => "" }

/-- C8: for every tokenizer behaviour and every input text, the
`unique_word_ratio` and `uppercase_ratio` features are rationals in `[0, 1]`,
and on the empty text both are `0`: the `if word_count > 0` / `if char_count
> 0` guards mean no division by zero is ever performed. -/
theorem text_ratios_in_unit_interval (libs : Libs) (text : String) :
    ∃ q1 q2 : ℚ,
      flookup (extractTextFeatures libs text) "unique_word_ratio" = some (.num q1) ∧
      flookup (extractTextFeatures libs text) "uppercase_ratio" = some (.num q2) ∧
      0 ≤ q1 ∧ q1 ≤ 1 ∧ 0 ≤ q2 ∧ q2 ≤ 1 ∧
      (text = "" → q1 = 0 ∧ q2 = 0) := by
  by_cases h : text = ""
  · subst h
    refine ⟨0, 0, ?_, ?_, le_refl 0, by norm_num, le_refl 0, by norm_num, fun _ => ⟨rfl, rfl⟩⟩
    · rw [extractTextFeatures_empty]; rfl
    · rw [extractTextFeatures_empty]; rfl
  · have hc : 0 < text.length := by
      have hd : text.data ≠ [] := fun hd => h ((string_eq_empty_iff text).mpr hd)
      exact List.length_pos.mpr hd
    unfold extractTextFeatures
    rw [if_neg h]
    dsimp only
    by_cases hw : 0 < (libs.wordTokenize (pyLower text)).length
    · simp only [if_pos hw, if_pos hc]
      refine ⟨((libs.wordTokenize (pyLower text)).dedup.length : ℚ)
          / ((libs.wordTokenize (pyLower text)).length : ℚ),
        ((text.data.countP Char.isUpper : ℚ)) / ((text.length : ℚ)), ?_, ?_, ?_, ?_, ?_, ?_, ?_⟩
      · simp +decide [flookup]
      · simp +decide [flookup]
      · positivity
      · rw [div_le_one (by exact_mod_cast hw)]
        exact_mod_cast (List.dedup_sublist _).length_le
      · positivity
      · rw [div_le_one (by exact_mod_cast hc)]
        have : text.data.countP Char.isUpper ≤ text.data.length := List.countP_le_length _
        exact_mod_cast this
      · intro he; exact absurd he h
    · simp only [if_neg hw, if_pos hc]
      refine ⟨0, ((text.data.countP Char.isUpper : ℚ)) / ((text.length : ℚ)), ?_, ?_,
        le_refl 0, by norm_num, ?_, ?_, ?_⟩
      · simp +decide [flookup]
      · simp +decide [flookup]
      · positivity
      · rw [div_le_one (by exact_mod_cast hc)]
        have : text.data.countP Char.isUpper ≤ text.data.length := List.countP_le_length _
        exact_mod_cast this
      · intro he; exact absurd he h

/-- Witness for C8 at the empty text and the trivial tokenizer. -/
theorem text_ratios_in_unit_interval_witness :
    ∃ q1 q2 : ℚ,
      flookup (extractTextFeatures trivLibs "") "unique_word_ratio" = some (.num q1) ∧
      flookup (extractTextFeatures trivLibs "") "uppercase_ratio" = some (.num q2) ∧
      0 ≤ q1 ∧ q1 ≤ 1 ∧ 0 ≤ q2 ∧ q2 ≤ 1 ∧
      ("" = "" → q1 = 0 ∧ q2 = 0) :=
  text_ratios_in_unit_interval trivLibs ""

/-- Whether `float(...)` would succeed on `features.get(f, 0)`: every scalar
(or missing) value converts, a list raises `TypeError`. -/
def notVec : Option FValue → Bool
  | some (.vec _) => false
  | _ => true

/-- The value `float(features.get(f, 0))` produces on scalar (or missing)
values: a missing key contributes `0.0`, a boolean `1.0`/`0.0`. -/
noncomputable def pyFloatD : Option FValue → ℝ
  | none => 0
  | some (.num q) => (q : ℝ)
  | some (.real r) => r
  | some (.bool b) => if b then 1 else 0
  | some (.vec _) => 0

/-- On scalar (or missing) values, `pyFloat` succeeds with `pyFloatD`. -/
theorem pyFloat_eq_pyFloatD (x : Option FValue) (h : notVec x = true) :
    pyFloat x = some (pyFloatD x) := by
  cases x with
  | none => rfl
  | some v => cases v <;> simp_all [pyFloat, pyFloatD, notVec]

/-- The numerical-features loop equals the map of `pyFloatD` over the name
list, for any name list whose looked-up values are all scalar or missing. -/
theorem prepareNumerical_eq_map (f : Features) (names : List String) (init : List ℝ)
    (h : ∀ n ∈ names, notVec (flookup f n) = true) :
    names.foldl
      (fun acc n =>
        match acc, pyFloat (flookup f n) with
        | some v, some x => some (v ++ [x])
        | _, _ => none)
      (some init)
    = some (init ++ names.map (fun n => pyFloatD (flookup f n))) := by
  induction names generalizing init with
  | nil => simp
  | cons n rest ih =>
    simp only [List.foldl_cons, List.map_cons]
    rw [pyFloat_eq_pyFloatD _ (h n (by simp))]
    show rest.foldl _ (some (init ++ [pyFloatD (flookup f n)])) = _
    rw [ih (init ++ [pyFloatD (flookup f n)]) (fun m hm => h m (by simp [hm]))]
    simp

/-- C9: for every feature mapping whose values at the 20 numerical feature
names are scalars (numbers or booleans) or missing — the well-typed feature
mappings the pipeline produces — `prepare_ml_input` returns one single row
vector of the fixed length 32: the 20 named numerical features in fixed
order (`float` of the value, a missing key contributing `0.0`), followed by
the 12 named boolean features encoded `1`/`0` by Python truthiness in fixed
order (a missing key contributing `0`). -/
theorem prepare_ml_input_fixed_shape (f : Features)
    (h : ∀ n ∈ numericalFeatureNames, notVec (flookup f n) = true) :
    prepare_ml_input f
      = some [numericalFeatureNames.map (fun n => pyFloatD (flookup f n))
          ++ booleanFeatureNames.map (fun n => if pyTruthy (flookup f n) then (1 : ℝ) else 0)] ∧
    (numericalFeatureNames.map (fun n => pyFloatD (flookup f n))
        ++ booleanFeatureNames.map (fun n => if pyTruthy (flookup f n) then (1 : ℝ) else 0)).length
      = 32 ∧
    pyFloatD none = 0 ∧ pyTruthy none = false := by
  refine ⟨?_, ?_, rfl, rfl⟩
  · unfold prepare_ml_input prepareNumerical
    rw [prepareNumerical_eq_map f numericalFeatureNames [] h]
    simp
  · rw [List.length_append, List.length_map, List.length_map]
    decide

/-- Witness for C9 at the empty feature mapping: every key is missing, the
hypothesis holds by computation, and the row is the all-zero vector of
length 32. -/
theorem prepare_ml_input_fixed_shape_witness :
    (∀ n ∈ numericalFeatureNames, notVec (flookup ([] : Features) n) = true) ∧
    (prepare_ml_input ([] : Features)
        = some [numericalFeatureNames.map (fun n => pyFloatD (flookup ([] : Features) n))
            ++ booleanFeatureNames.map
              (fun n => if pyTruthy (flookup ([] : Features) n) then (1 : ℝ) else 0)] ∧
      (numericalFeatureNames.map (fun n => pyFloatD (flookup ([] : Features) n))
          ++ booleanFeatureNames.map
            (fun n => if pyTruthy (flookup ([] : Features) n) then (1 : ℝ) else 0)).length
        = 32 ∧
      pyFloatD none = 0 ∧ pyTruthy none = false) :=
  ⟨by decide, prepare_ml_input_fixed_shape ([] : Features) (by decide)⟩

/-- The metadata dictionary in explicit form: the nine keys of the initial
all-false dictionary in order, with the computed Reply-To, SPF/DKIM and HTML
flag values — and `has_dmarc_fail` still at its initial `false`, which no
statement of the function ever assigns. -/
theorem extractMetadataFeatures_explicit (email : EmailData) :
    extractMetadataFeatures email =
      [("has_reply_to", .bool (truthyStr (pyGetHeader email.headers "Reply-To"))),
       ("reply_to_mismatch", .bool (truthyStr (pyGetHeader email.headers "Reply-To")
          && (pyGetHeader email.headers "Reply-To" != pyGetHeader email.headers "From"))),
       ("has_spf_fail", .bool (pyContains
          (pyLower ((pyGetHeader email.headers "Authentication-Results").getD "")) "spf=fail")),
       ("has_dkim_fail", .bool (pyContains
          (pyLower ((pyGetHeader email.headers "Authentication-Results").getD "")) "dkim=fail")),
       ("has_dmarc_fail", .bool false),
       ("has_html", .bool email.has_html), ("has_forms", .bool email.has_forms),
       ("has_scripts", .bool email.has_scripts), ("has_iframes", .bool email.has_iframes)] := by
  unfold extractMetadataFeatures
  dsimp only
  by_cases h1 : truthyStr (pyGetHeader email.headers "Reply-To")
  · by_cases h2 : pyGetHeader email.headers "Reply-To" ≠ pyGetHeader email.headers "From"
    · rw [if_pos h1, if_pos h2]
      simp +decide [fset, h1, bne_iff_ne.mpr h2]
    · rw [if_pos h1, if_neg h2]
      push_neg at h2
      simp +decide [fset, h1, ← h2]
  · rw [if_neg h1]
    simp only [Bool.not_eq_true] at h1
    simp +decide [fset, h1]



/-- C10: for every email record (and every library behaviour and vectorizer
state), whenever `extract_all_features` returns a feature dictionary, its
`has_dmarc_fail` entry is `False`: the Analyzer initialises the flag and
never computes DMARC failure — only the SPF and DKIM substring checks are
performed. -/
theorem has_dmarc_fail_always_false (libs : Libs) (st : TfidfVectorizerState)
    (email : EmailData) (result : Features × TfidfVectorizerState)
    (h : extractAllFeatures libs st email = some result) :
    flookup result.1 "has_dmarc_fail" = some (.bool false) := by
  unfold extractAllFeatures at h
  cases htf : getTfidfFeatures st email.body with
  | none => rw [htf] at h; exact absurd h (by simp)
  | some p =>
    obtain ⟨v, st'⟩ := p
    rw [htf] at h
    simp only [Option.some_inj] at h
    rw [← h]
    simp +decide [extractMetadataFeatures_explicit, extractBehavioralFeatures,
      extractAttachmentFeatures, fupdate, flookup_fset, List.foldl_cons, List.foldl_nil]

/-- Witness for C10 at the default email, where `extract_all_features`
evaluates to the default dictionary. -/
theorem has_dmarc_fail_always_false_witness :
    extractAllFeatures trivLibs initTfidfVectorizer {}
      = some (defaultEmailFeatures, initTfidfVectorizer) ∧
    flookup (defaultEmailFeatures, initTfidfVectorizer).1 "has_dmarc_fail"
      = some (.bool false) :=
  ⟨extractAllFeatures_default trivLibs initTfidfVectorizer,
   has_dmarc_fail_always_false trivLibs initTfidfVectorizer {}
     (defaultEmailFeatures, initTfidfVectorizer)
     (extractAllFeatures_default trivLibs initTfidfVectorizer)⟩

end PhishFE
